import Mathlib

/-!
Verification development for the `commit-lint` repository.

The repository's core is a set of commit-message format handlers
(`conventional`, `github`, `jira`, `custom`), each with a compiled
regular-expression grammar, a rule-based validator producing a structured
result `{valid, errors, ...}`, and an interactive message builder.

This file gives a shallow embedding of that core:

* each Python regular expression is embedded as an executable Lean parser
  whose semantics is derived, case by case, from the backtracking
  behaviour of Python's `re` engine on that concrete pattern (the
  derivations are documented at each definition);
* each `validate` method becomes a Lean function from a typed
  configuration and a message string to a result record; the only
  genuinely fallible steps (the `issue_keywords[0]` subscript in the
  GitHub handler and the pydantic field validation of the Custom
  handler's result) are modelled with `Except`;
* each `prompt_for_message` control flow becomes a pure function of a
  record of injected prompt answers, mirroring the source's sequencing.

All definitions are computable so that every theorem can be instantiated
and evaluated on concrete inputs.
-/

namespace CommitLint

/-! ## Character classes (Python `re` semantics, ASCII fragment)

Python's `\w` is `[a-zA-Z0-9_]` (plus non-ASCII letters, which never occur
in the patterns' fixed parts and are excluded from the hypotheses of the
universally quantified theorems below), `\s` is `[ \t\n\r\f\v]` (plus
non-ASCII spaces), `\d` is `[0-9]`. -/

/-- Python `\w` on ASCII: letters, digits and underscore. -/
def isWordChar (c : Char) : Bool :=
  (('a' ≤ c && c ≤ 'z') || ('A' ≤ c && c ≤ 'Z') || ('0' ≤ c && c ≤ '9') || c = '_')

/-- The conventional-commit scope class `[\w-]`. -/
def isScopeChar (c : Char) : Bool :=
  isWordChar c || c = '-'

/-- Python `\s` on ASCII: space, tab, newline, carriage return, form feed,
vertical tab. -/
def isPySpace (c : Char) : Bool :=
  c = ' ' || c = '\t' || c = '\n' || c = '\r' || c = '\x0c' || c = '\x0b'

/-- Python `\d` on ASCII. -/
def isDigitChar (c : Char) : Bool :=
  '0' ≤ c && c ≤ '9'

/-- The Jira issue-id class `[A-Z0-9_]`. -/
def isJiraIdChar (c : Char) : Bool :=
  ('A' ≤ c && c ≤ 'Z') || ('0' ≤ c && c ≤ '9') || c = '_'

/-- `[A-Z]`. -/
def isUpperAZ (c : Char) : Bool :=
  'A' ≤ c && c ≤ 'Z'

/-- `[^\n]`, the conventional description class. -/
def isNotNewline (c : Char) : Bool :=
  !(c == '\n')

/-! ## Generic string helpers shared by the handlers -/

/-- Python `str.strip()` on a character list: drop whitespace from both
ends. -/
def pyStrip (l : List Char) : List Char :=
  (((l.dropWhile isPySpace).reverse.dropWhile isPySpace).reverse)

/-- Python `str.split("\n\n", 1)`: split at the first blank line, if any.
Returns the part before the first `"\n\n"` and, when the separator occurs,
the remainder after it. -/
def splitOnBlank : List Char → List Char × Option (List Char)
  | [] => ([], none)
  | [c] => ([c], none)
  | c1 :: c2 :: rest =>
    if c1 = '\n' ∧ c2 = '\n' then ([], some rest)
    else
      let (a, b) := splitOnBlank (c2 :: rest)
      (c1 :: a, b)

/-- The first word of Python `str.split()` (whitespace split, empties
dropped), or `[]` when there is none.  The GitHub handler's
imperative-mood check computes `subject.split()[0].lower() if
subject.split() else ""`; the guarded subscript is exactly this function
(the first whitespace-separated word, empty when the subject is all
whitespace or empty, in which case Python produces `""` as well). -/
def firstWord (l : List Char) : List Char :=
  (l.dropWhile isPySpace).takeWhile (fun c => !(isPySpace c))

/-- ASCII lowering, modelling Python `str.lower()` on the ASCII inputs the
validators compare against. -/
def pyLower (l : List Char) : List Char :=
  l.map Char.toLower

/-- Python truthiness of an optional string (`None` and `""` are falsy). -/
def strTruthy : Option (List Char) → Bool
  | none => false
  | some s => !s.isEmpty

/-! ## Conventional Commits handler (`formats/conventional.py`)

The compiled pattern is

```
^(?P<type>\w+)(?:\((?P<scope>[\w-]+)\))?(?P<breaking>!)?: (?P<description>[^\n]+)
 (?:\n\n(?P<body>[\s\S]*?))?(?:\n\n(?P<footer>[\s\S]*))?$
```

with `re.DOTALL`, applied with `re.match` (anchored at the start).

Backtracking semantics, derived clause by clause:

* `\w+` is greedy, and every character that may legally follow the type
  (`(`, `!`, `:`) is a non-word character, so the type is exactly the
  maximal word-character run and shortening it can never help;
* if a `(` follows the type, the optional scope group must complete
  (`[\w-]+` maximal run, which must be nonempty and be followed by `)`,
  since `)` is not in the class); if it cannot, the group is skipped and
  the following `!?: ` cannot match the `(`, so the whole match fails;
* after the optional `!`, the literal `: ` must follow, and the
  description `[^\n]+` greedily takes the rest of the first line and must
  be nonempty;
* after the first line, the remainder `R` is matched against
  `(?:\n\n(body [\s\S]*?))?(?:\n\n(footer [\s\S]*))?$` where `$` (no
  MULTILINE) matches at the end of the string or just before a final
  newline.  If `R` is empty or a single `"\n"`, both groups are skipped.
  If `R` starts with `"\n\n"`, the body group participates and its lazy
  `[\s\S]*?` stops at the first position of the tail `X` where either
  `"\n\n"` follows (footer = everything after it, greedy to the end), or
  the end of `X` is reached, or only a final `"\n"` remains.  Otherwise
  (a single `"\n"` followed by more text) the match fails. -/

/-- The tail split shared by the conventional body/footer groups and the
GitHub subject/body pattern: the prefix of `X` up to the first `"\n\n"`
(with the `$`-before-final-newline rule), and the remainder after that
separator when it occurs. -/
def bodySplit : List Char → List Char × Option (List Char)
  | [] => ([], none)
  | [c] => if c = '\n' then ([], none) else ([c], none)
  | c1 :: c2 :: rest =>
    if c1 = '\n' ∧ c2 = '\n' then ([], some rest)
    else
      let (b, f) := bodySplit (c2 :: rest)
      (c1 :: b, f)

/-- The conventional pattern's behaviour on the remainder after the first
line: `none` means the whole match fails. -/
def restSplit : List Char → Option (Option (List Char) × Option (List Char))
  | [] => some (none, none)
  | [c] => if c = '\n' then some (none, none) else none
  | c1 :: c2 :: rest =>
    if c1 = '\n' ∧ c2 = '\n' then
      let (b, f) := bodySplit rest
      some (some b, f)
    else none

/-- Parsed components of a conventional commit message. -/
structure ConvParts where
  type : List Char
  scope : Option (List Char)
  breaking : Bool
  description : List Char
  body : Option (List Char)
  footer : Option (List Char)
deriving Repr, DecidableEq

/-- `self.commit_pattern.match(commit_message)` of the Conventional
handler, per the derivation above. -/
def conventionalMatch (l : List Char) : Option ConvParts :=
  let t := l.takeWhile isWordChar
  let r1 := l.dropWhile isWordChar
  if t = [] then none
  else
    let scopeStep : Option (Option (List Char) × List Char) :=
      match r1 with
      | '(' :: r2 =>
        let s := r2.takeWhile isScopeChar
        let r3 := r2.dropWhile isScopeChar
        if s = [] then none
        else
          match r3 with
          | ')' :: r4 => some (some s, r4)
          | _ => none
      | _ => some (none, r1)
    match scopeStep with
    | none => none
    | some (sc, r5) =>
      let (brk, r6) : Bool × List Char :=
        match r5 with
        | '!' :: r6 => (true, r6)
        | _ => (false, r5)
      match r6 with
      | ':' :: ' ' :: r7 =>
        let d := r7.takeWhile isNotNewline
        let r8 := r7.dropWhile isNotNewline
        if d = [] then none
        else
          match restSplit r8 with
          | none => none
          | some (b, f) =>
            some { type := t, scope := sc, breaking := brk,
                   description := d, body := b, footer := f }
      | _ => none

/-- Configuration keys read by `ConventionalCommitFormat.validate`, with
the source's `config.get` defaults.  An empty list models both an absent
key and an explicitly empty list (Python treats both as falsy). -/
structure ConvConfig where
  types : List String := []
  scope_required : Bool := false
  allowed_scopes : List String := []
  allowed_breaking_changes : List String := []
  max_subject_length : Nat := 100
  subject_case : String := "lower"
  no_period_end : Bool := true
  body_required : Bool := false
  footer_required : Bool := false
deriving Repr

/-- `ConventionalCommitResult`. -/
structure ConvResult where
  valid : Bool
  errors : List String
  type : Option String := none
  scope : Option String := none
  breaking : Bool := false
  description : Option String := none
  body : Option String := none
  footer : Option String := none
deriving Repr, DecidableEq

/-- Error strings of `ConventionalCommitFormat.validate`. -/
def convGenericErr : String :=
  "Commit message does not follow Conventional Commits format"

def convTypeErr (t : String) (types : List String) : String :=
  "Invalid type: " ++ t ++ ". Must be one of: " ++ String.intercalate ", " types

def convScopeRequiredErr : String := "Scope is required"

def convScopeErr (s : String) (scopes : List String) : String :=
  "Invalid scope: " ++ s ++ ". Must be one of: " ++ String.intercalate ", " scopes

def convBreakingErr (t : String) : String :=
  "Breaking changes not allowed for type: " ++ t

def convLengthErr (actual maximum : Nat) : String :=
  "Subject line too long (" ++ toString actual ++ " > " ++ toString maximum ++ ")"

def convLowerErr : String := "Subject description must start with lowercase"

def convUpperErr : String := "Subject description must start with uppercase"

def convPeriodErr : String := "Subject description should not end with period"

def convBodyRequiredErr : String := "Body is required"

def convFooterRequiredErr : String := "Footer is required"

/-- The reconstructed subject line `type[(scope)][!]: description`
(source lines 152–157); `if scope:` is Python truthiness of the optional
group value. -/
def convSubjectLine (p : ConvParts) : List Char :=
  p.type
    ++ (match p.scope with
        | some s => if s.isEmpty then [] else '(' :: s ++ [')']
        | none => [])
    ++ (if p.breaking then ['!'] else [])
    ++ (':' :: ' ' :: p.description)

/-- `description[0].islower()` / `isupper()`: Python `str.islower` on a
single character is false for non-cased characters, which for the ASCII
fragment is exactly `Char.isLower`.  The description is nonempty whenever
the pattern matched (`[^\n]+`), so the head subscript is safe; the
defaulted head models it totally. -/
def convCaseErrors (cfg : ConvConfig) (d : List Char) : List String :=
  if cfg.subject_case = "lower" ∧ ¬ (d.headD ' ').isLower then [convLowerErr]
  else if cfg.subject_case = "upper" ∧ ¬ (d.headD ' ').isUpper then [convUpperErr]
  else []

/-- The rule-check error list of `ConventionalCommitFormat.validate`, in
the source's append order (type, scope required, allowed scopes,
breaking, length, case, period, body, footer). -/
def convErrors (cfg : ConvConfig) (p : ConvParts) : List String :=
  let typeStr : String := String.mk p.type
  (if ¬ cfg.types.isEmpty ∧ typeStr ∉ cfg.types then
      [convTypeErr typeStr cfg.types] else [])
  ++ (if cfg.scope_required ∧ ¬ strTruthy p.scope then [convScopeRequiredErr] else [])
  ++ (match p.scope with
      | some s =>
        if ¬ cfg.allowed_scopes.isEmpty ∧ ¬ s.isEmpty ∧ String.mk s ∉ cfg.allowed_scopes then
          [convScopeErr (String.mk s) cfg.allowed_scopes] else []
      | none => [])
  ++ (if p.breaking ∧ typeStr ∉ cfg.allowed_breaking_changes then
      [convBreakingErr typeStr] else [])
  ++ (if (convSubjectLine p).length > cfg.max_subject_length then
      [convLengthErr (convSubjectLine p).length cfg.max_subject_length] else [])
  ++ convCaseErrors cfg p.description
  ++ (if cfg.no_period_end ∧ (pyStrip p.description).getLast? = some '.' then
      [convPeriodErr] else [])
  ++ (if cfg.body_required ∧ ¬ strTruthy p.body then [convBodyRequiredErr] else [])
  ++ (if cfg.footer_required ∧ ¬ strTruthy p.footer then [convFooterRequiredErr] else [])

/-- `ConventionalCommitFormat.validate`. -/
def conventionalValidate (cfg : ConvConfig) (msg : String) : ConvResult :=
  match conventionalMatch msg.data with
  | none =>
    { valid := false, errors := [convGenericErr] }
  | some p =>
    let errors := convErrors cfg p
    { valid := errors.isEmpty
      errors := errors
      type := some (String.mk p.type)
      scope := p.scope.map String.mk
      breaking := p.breaking
      description := some (String.mk p.description)
      body := p.body.map String.mk
      footer := p.footer.map String.mk }

/-! ## Jira handler (`formats/jira.py`)

`validate` splits the message on the first `"\n\n"`, strips the first
part, and matches it against the module constant

```
JIRA_ID_PATTERN = ^\s*([A-Z][A-Z0-9_]+-\d+)\s*:\s+(.*?)\s*$
```

(no DOTALL, no MULTILINE; `re.match`).  Note that `validate` never uses
the `commit_pattern` compiled in `__init__` from the configured project
keys — membership of the key is checked separately, after the fixed
pattern has matched.

Backtracking semantics of the id pattern on a string `L`:

* `^\s*` takes the maximal whitespace run (`[A-Z]` is disjoint from
  `\s`, so shortening it cannot help);
* the key is `[A-Z]` plus the maximal `[A-Z0-9_]+` run (at least two
  characters in total), which must be followed by `-` (not in the
  class), then the maximal digit run (nonempty), then `\s*` and `:`;
* `\s+` then takes the maximal whitespace run `W` (which must be
  nonempty), leaving a remainder `Rm` that starts with a non-whitespace
  character or is empty;
* the lazy `(.*?)\s*$` makes the message group the shortest prefix of
  `Rm` whose complement is pure whitespace — i.e. `Rm` with its trailing
  whitespace stripped — provided that prefix contains no newline (`.`
  cannot match `\n`, and giving whitespace back from `W` to the group
  only prepends whitespace without removing the offending newline, so it
  never rescues a failed match).  Otherwise the match fails. -/

/-- `re.match(JIRA_ID_PATTERN, first_line)`: returns the groups
`(issue_id, message)` on success. -/
def jiraIdMatch (l : List Char) : Option (List Char × List Char) :=
  let r0 := l.dropWhile isPySpace
  match r0 with
  | c0 :: r1 =>
    if isUpperAZ c0 then
      let k := r1.takeWhile isJiraIdChar
      let r2 := r1.dropWhile isJiraIdChar
      if k = [] then none
      else
        match r2 with
        | '-' :: r3 =>
          let num := r3.takeWhile isDigitChar
          let r4 := r3.dropWhile isDigitChar
          if num = [] then none
          else
            match r4.dropWhile isPySpace with
            | ':' :: r5 =>
              let w := r5.takeWhile isPySpace
              let rm := r5.dropWhile isPySpace
              if w = [] then none
              else
                let msg := (rm.reverse.dropWhile isPySpace).reverse
                if msg.any (fun c => c = '\n') then none
                else some (c0 :: k ++ '-' :: num, msg)
            | _ => none
        | _ => none
    else none
  | [] => none

/-- Configuration keys read by `JiraCommitFormat.validate`, with the
source defaults (`DEFAULT_MAX_LENGTH = 72`). -/
structure JiraConfig where
  jira_project_keys : List String := []
  require_issue_id : Bool := true
  max_message_length : Nat := 72
deriving Repr

/-- `JiraCommitResult`. -/
structure JiraResult where
  valid : Bool
  errors : List String
  issue_id : Option String := none
  message : Option String := none
  body : Option String := none
deriving Repr, DecidableEq

/-- Error strings of `JiraCommitFormat.validate`. -/
def jiraProjectErr (keys : List String) : String :=
  "Commit message must start with a Jira issue ID from one of the allowed projects: "
    ++ String.intercalate ", " keys

def jiraGenericErr : String :=
  "Commit message must start with a Jira issue ID (e.g., PROJECT-123: message)"

def jiraLengthErr (actual maximum : Nat) : String :=
  "Commit message is too long (" ++ toString actual ++ " > "
    ++ toString maximum ++ " characters)"

/-- `issue_id.split("-")[0]`: the part of the id before the first
hyphen. -/
def jiraKeyOf (issueId : List Char) : List Char :=
  issueId.takeWhile (fun c => c ≠ '-')

/-- `JiraCommitFormat.validate`.  `message_text` starts as the whole
commit message, is replaced by the stripped second group when the id
pattern matches, and by the stripped first line when the id is optional
and missing; in the required-and-missing branch it keeps its initial
value, so the final length check inspects the entire message there. -/
def jiraValidate (cfg : JiraConfig) (msg : String) : JiraResult :=
  let (p0, pbody) := splitOnBlank msg.data
  let firstLine := pyStrip p0
  let body := pbody.map pyStrip
  let step : Option (List Char) × List Char × List String :=
    match jiraIdMatch firstLine with
    | some (issueId, m) =>
      let messageText := pyStrip m
      let keyErrs :=
        if ¬ cfg.jira_project_keys.isEmpty
            ∧ String.mk (jiraKeyOf issueId) ∉ cfg.jira_project_keys then
          [jiraProjectErr cfg.jira_project_keys]
        else []
      (some issueId, messageText, keyErrs)
    | none =>
      if cfg.require_issue_id then
        (none, msg.data, [jiraGenericErr])
      else
        (none, firstLine, [])
  let (issueId, messageText, errs) := step
  let errors :=
    errs ++ (if messageText.length > cfg.max_message_length then
      [jiraLengthErr messageText.length cfg.max_message_length] else [])
  { valid := errors.isEmpty
    errors := errors
    issue_id := issueId.map String.mk
    message := some (String.mk messageText)
    body := body.map String.mk }

/-! ## GitHub handler (`formats/github.py`)

Two compiled patterns:

* `commit_pattern = ^(?P<subject>.+?)(?:\n\n(?P<body>[\s\S]*))?$` with
  `re.DOTALL` and `re.match`.  With DOTALL the lazy `.+?` can cross
  newlines, so the subject is the shortest *nonempty* prefix after which
  either `"\n\n"` follows (body = the greedy rest) or the string ends
  (possibly just before one final newline, by the `$` rule).  This is one
  leading character followed by exactly the `bodySplit` of the rest; the
  pattern fails only on the empty string.

* `issue_pattern = (?:^|\s)(?P<keyword>K1|K2|…):?\s+#(?P<issue>\d+)`
  compiled `re.IGNORECASE` from the configured keywords and used with
  `re.search`: the leftmost starting position wins, `^` is tried before
  `\s` at position 0, alternatives are tried in list order with full
  backtracking, and the captured keyword is the message text actually
  matched (not the pattern's spelling). -/

/-- Case-insensitive literal match of one keyword against a prefix of
`l`; returns the matched message characters and the remainder.  Models
one alternative of the compiled `re.IGNORECASE` alternation for keywords
made of ASCII letters (the default `Fixes`, `Closes`, `Resolves` and any
letter-only configured list). -/
def matchKeywordCI : List Char → List Char → Option (List Char × List Char)
  | [], l => some ([], l)
  | _ :: _, [] => none
  | k :: ks, c :: cs =>
    if k.toLower = c.toLower then
      match matchKeywordCI ks cs with
      | some (w, r) => some (c :: w, r)
      | none => none
    else none

/-- After a keyword: `:?\s+#(?P<issue>\d+)` — an optional colon, at least
one whitespace character, `#`, then a nonempty maximal digit run.
(`:?` is greedy but a colon can never satisfy the following `\s+`, so
consuming the colon when present is the only way to match.) -/
def matchRefTail (l : List Char) : Option (List Char) :=
  let l1 := match l with
    | ':' :: r => r
    | r => r
  let w := l1.takeWhile isPySpace
  let r2 := l1.dropWhile isPySpace
  if w = [] then none
  else
    match r2 with
    | '#' :: r3 =>
      let num := r3.takeWhile isDigitChar
      if num = [] then none else some num
    | _ => none

/-- The keyword-and-reference part of `issue_pattern` at the head of
`l`: alternatives in configured order, each with its full
continuation (regex alternation backtracks into later alternatives when
the tail fails). -/
def matchRefHere (kws : List String) (l : List Char) : Option (String × String) :=
  match kws with
  | [] => none
  | kw :: rest =>
    match matchKeywordCI kw.data l with
    | some (w, r) =>
      match matchRefTail r with
      | some num => some (String.mk w, String.mk num)
      | none => matchRefHere rest l
    | none => matchRefHere rest l

/-- `self.issue_pattern.search(commit_message)`: scan starting positions
left to right; at position 0 the `^` branch applies, at any whitespace
character the `\s` branch consumes it and the reference must follow. -/
def searchIssueScan (kws : List String) : List Char → Option (String × String)
  | [] => none
  | c :: rest =>
    if isPySpace c then
      match matchRefHere kws rest with
      | some r => some r
      | none => searchIssueScan kws rest
    else searchIssueScan kws rest

def searchIssue (kws : List String) (l : List Char) : Option (String × String) :=
  match matchRefHere kws l with
  | some r => some r
  | none => searchIssueScan kws l

/-- `commit_pattern.match`: subject and optional body (see the module
comment). -/
def githubSplit : List Char → Option (List Char × Option (List Char))
  | [] => none
  | c :: rest =>
    let (s, b) := bodySplit rest
    some (c :: s, b)

/-- Configuration keys read by `GitHubCommitFormat`, with the source
defaults. -/
structure GitHubConfig where
  max_subject_length : Nat := 72
  imperative_mood : Bool := true
  issue_reference_required : Bool := false
  keywords : List String := ["Fixes", "Closes", "Resolves"]
deriving Repr

/-- `GitHubCommitResult`. -/
structure GitHubResult where
  valid : Bool
  errors : List String
  message : Option String := none
  issue_reference : Option String := none
  issue_keyword : Option String := none
deriving Repr, DecidableEq

/-- Error strings of `GitHubCommitFormat.validate`. -/
def githubInvalidErr : String := "Invalid commit message format"

def githubLengthErr (actual maximum : Nat) : String :=
  "Subject line too long (" ++ toString actual ++ " > " ++ toString maximum ++ ")"

def githubImperativeErr : String :=
  "Use imperative mood in subject line (e.g., 'Add' not 'Added')"

def githubMissingRefErr (first : String) (kws : List String) : String :=
  "Missing issue reference (e.g., '" ++ first ++ " #123'). Use one of: "
    ++ String.intercalate ", " kws

/-- The fixed non-imperative starter list (source line 114). -/
def nonImperativeStarters : List String :=
  ["added", "fixes", "fixed", "adding", "updated", "changed"]

/-- `GitHubCommitFormat.validate`.  The only fallible step is the
`self.issue_keywords[0]` subscript in the missing-reference error, which
raises `IndexError` when the configured keyword list is empty; it is
modelled by the `.error` branch. -/
def githubValidate (cfg : GitHubConfig) (msg : String) : Except String GitHubResult :=
  match githubSplit msg.data with
  | none =>
    .ok { valid := false, errors := [githubInvalidErr] }
  | some (subject, _) =>
    let lenErrs :=
      if subject.length > cfg.max_subject_length then
        [githubLengthErr subject.length cfg.max_subject_length] else []
    let impErrs :=
      if cfg.imperative_mood
          ∧ String.mk (pyLower (firstWord subject)) ∈ nonImperativeStarters then
        [githubImperativeErr] else []
    match searchIssue cfg.keywords msg.data with
    | some (kw, num) =>
      let errors := lenErrs ++ impErrs
      .ok { valid := errors.isEmpty
            errors := errors
            message := some (String.mk subject)
            issue_reference := some num
            issue_keyword := some kw }
    | none =>
      if cfg.issue_reference_required then
        match cfg.keywords with
        | [] => .error "IndexError: list index out of range"
        | first :: _ =>
          let errors := lenErrs ++ impErrs ++ [githubMissingRefErr first cfg.keywords]
          .ok { valid := errors.isEmpty
                errors := errors
                message := some (String.mk subject) }
      else
        let errors := lenErrs ++ impErrs
        .ok { valid := errors.isEmpty
              errors := errors
              message := some (String.mk subject) }

/-! ## Custom handler (`formats/custom.py`)

The pattern is user configuration, not source code, so `validate` is
embedded parametrically in the compiled pattern's matching function: a
`matchFn` sending a message to `none` (no match) or to the
`match.groupdict()` association list — every named group of the pattern,
each mapped to `some` captured text or to `none` when the group did not
participate.

`validate` builds `CustomCommitResult(..., matches=match.groupdict())`
where the `matches` field is declared `Dict[str, str]`; pydantic
validates every value against `str` at construction, so a `None` value —
an optional named group that did not participate — raises
`pydantic.ValidationError` out of `validate`.  That raise is the
`.error` branch. -/

/-- `CustomCommitResult`. -/
structure CustomResult where
  valid : Bool
  errors : List String
  message : String := ""
  «matches» : List (String × String) := []
deriving Repr, DecidableEq

def customGenericErr : String := "Commit message does not match the custom pattern"

def customPydanticErr : String :=
  "pydantic ValidationError: matches values must be valid strings"

/-- `CustomCommitFormat.validate`, parametric in the compiled pattern's
matcher. -/
def customValidate (matchFn : String → Option (List (String × Option String)))
    (msg : String) : Except String CustomResult :=
  match matchFn msg with
  | none =>
    .ok { valid := false, errors := [customGenericErr], message := msg, «matches» := [] }
  | some groups =>
    if groups.any (fun g => g.2 = none) then
      .error customPydanticErr
    else
      .ok { valid := true, errors := [], message := msg
            «matches» := groups.map (fun g => (g.1, g.2.getD "")) }

/-- The matcher of the concrete configured pattern
`^(?P<a>x)(?P<b>y)?$` (`re.DOTALL`, `re.match`): `"x"` matches with the
optional group `b` not participating, `"xy"` matches with both groups,
and nothing else matches (both literals are anchored). -/
def xyMatch (msg : String) : Option (List (String × Option String)) :=
  if msg = "x" then some [("a", some "x"), ("b", none)]
  else if msg = "xy" then some [("a", some "x"), ("b", some "y")]
  else none

/-- The matcher of the spec's Scenario E pattern
`^\[(?P<category>\w+)\] (?P<message>.+)$` (`re.DOTALL`): a literal `[`,
a nonempty maximal word run, `] `, then a nonempty greedy rest (DOTALL
lets `.` cross newlines, so the rest is everything to the end). -/
def scenarioEMatch (msg : String) : Option (List (String × Option String)) :=
  match msg.data with
  | '[' :: r1 =>
    let cat := r1.takeWhile isWordChar
    let r2 := r1.dropWhile isWordChar
    if cat = [] then none
    else
      match r2 with
      | ']' :: ' ' :: r3 =>
        if r3.isEmpty then none
        else some [("category", some (String.mk cat)), ("message", some (String.mk r3))]
      | _ => none
  | _ => none

/-! ## Format registry (`formats/__init__.py`)

`FORMAT_REGISTRY` is a dict comprehension over the class list
`[ConventionalCommitFormat, GitHubCommitFormat, JiraCommitFormat,
CustomCommitFormat]` keyed by `get_format_name()`; Python dicts preserve
that insertion order, which `", ".join(FORMAT_REGISTRY.keys())` exposes
in the unknown-format error.

`get_commit_format(config)` reads `config.get("format_type",
"conventional")`, raises `ValueError` listing the valid names when the
name is unknown (before any constructor runs), and otherwise calls the
class constructor.  Constructors: Conventional compiles only a fixed
literal pattern and accepts any (well-typed) configuration; GitHub and
Jira compile patterns assembled from the unescaped configured keywords
and project keys (github.py line 71, jira.py lines 82-86) and let
`re.error` propagate when that compilation fails (e.g. a keyword or key
containing a regex metacharacter such as `(`); Custom catches `re.error`
and raises `InvalidPatternError` when `custom_pattern` is missing/empty
or fails to compile.  Regex compilation is an external call, abstracted
as a `compileOk` predicate on the pattern string handed to
`re.compile`. -/

inductive FormatName where
  | conventional
  | github
  | jira
  | custom
deriving Repr, DecidableEq

def formatRegistry : List (String × FormatName) :=
  [("conventional", .conventional), ("github", .github),
   ("jira", .jira), ("custom", .custom)]

def unknownFormatErr (ft : String) : String :=
  "Unknown commit format type: " ++ ft ++ ". Valid types: "
    ++ String.intercalate ", " (formatRegistry.map (·.1))

def customMissingPatternErr : String := "No custom_pattern provided in configuration"

def customInvalidPatternErr : String :=
  "Invalid regular expression in custom_pattern"

/-- The uncaught `re.error` the GitHub and Jira constructors propagate
when the pattern assembled from the configuration fails to compile (its
exact Python message depends on the pattern, which the `compileOk`
abstraction does not resolve). -/
def reCompileErr : String := "re.error: invalid regular expression"

/-- The issue-reference pattern string the GitHub constructor compiles
(github.py line 71): the configured keywords joined by `|`, spliced in
without escaping. -/
def githubIssuePatternStr (keywords : List String) : String :=
  "(?:^|\\s)(?P<keyword>" ++ String.intercalate "|" keywords
    ++ "):?\\s+#(?P<issue>\\d+)"

/-- The commit pattern string the Jira constructor compiles (jira.py
lines 82-86): the configured project keys joined by `|` (or `\w+` when
none are configured), spliced in without escaping. -/
def jiraCommitPatternStr (keys : List String) : String :=
  "^(?P<issue_id>(?:"
    ++ (if keys.isEmpty then "\\w+" else String.intercalate "|" keys)
    ++ ")-\\d+):\\s+(?P<message>.+?)(?:\\n\\n(?P<body>[\\s\\S]*))?$"

/-- Registry-level configuration: the `format_type` key, the
`custom_pattern` key consumed by the Custom constructor (absent keys are
`none`; `config.get("custom_pattern", "")` makes `none` and `""`
equivalent), and the `keywords` / `jira_project_keys` lists the GitHub
and Jira constructors splice into the patterns they compile, with the
source's `config.get` defaults. -/
structure RegistryConfig where
  format_type : Option String := none
  custom_pattern : Option String := none
  keywords : List String := ["Fixes", "Closes", "Resolves"]
  jira_project_keys : List String := []

/-- The constructed-handler outcome: which class was instantiated, or
the exception the constructor raised.  Conventional compiles only a
fixed literal pattern and always succeeds; GitHub and Jira succeed
exactly when the pattern assembled from the configuration compiles,
propagating `re.error` otherwise; Custom raises `InvalidPatternError`
for a missing/empty or non-compiling `custom_pattern`. -/
def constructHandler (compileOk : String → Bool) (cfg : RegistryConfig)
    (f : FormatName) : Except String FormatName :=
  match f with
  | .conventional => .ok .conventional
  | .github =>
    if compileOk (githubIssuePatternStr cfg.keywords) then .ok .github
    else .error reCompileErr
  | .jira =>
    if compileOk (jiraCommitPatternStr cfg.jira_project_keys) then .ok .jira
    else .error reCompileErr
  | .custom =>
    let pat := cfg.custom_pattern.getD ""
    if pat = "" then .error customMissingPatternErr
    else if ¬ compileOk pat then .error customInvalidPatternErr
    else .ok .custom

/-- `get_commit_format`. -/
def getCommitFormat (compileOk : String → Bool) (cfg : RegistryConfig) :
    Except String FormatName :=
  let ft := cfg.format_type.getD "conventional"
  match formatRegistry.lookup ft with
  | none => .error (unknownFormatErr ft)
  | some f => constructHandler compileOk cfg f

/-! ## Interactive builders as pure functions of injected answers

Each `prompt_for_message` drives a blocking prompt collaborator.  The
builders below take a record of injected answers — the value each prompt
call returns — and reproduce the source's control flow and assembly
exactly.  Loops whose exit condition the collaborator controls
(`while scope_required and not scope`, the body-line loops) are
represented by their observable outcome: the final accepted value (for
the re-prompt loop, whose invariant `scope ≠ ""` on exit when required
is a hypothesis of the round-trip theorems) and the full line list (for
the body loops, which the builder folds exactly as the source does). -/

lemma takeWhile_append_eq {P : Char → Bool} :
    ∀ (l r : List Char), (∀ c ∈ l, P c = true) →
      (∀ c, r.head? = some c → P c = false) →
      (l ++ r).takeWhile P = l := by
  intro l r hl hr
  induction l with
  | nil =>
    cases r with
    | nil => rfl
    | cons c cs => simp [List.takeWhile_cons, hr c rfl]
  | cons c cs ih =>
    have hc := hl c (by simp)
    simp only [List.cons_append, List.takeWhile_cons, hc]
    simp [ih (fun d hd => hl d (by simp [hd]))]

lemma dropWhile_append_eq {P : Char → Bool} :
    ∀ (l r : List Char), (∀ c ∈ l, P c = true) →
      (∀ c, r.head? = some c → P c = false) →
      (l ++ r).dropWhile P = r := by
  intro l r hl hr
  induction l with
  | nil =>
    cases r with
    | nil => rfl
    | cons c cs => simp [List.dropWhile_cons, hr c rfl]
  | cons c cs ih =>
    have hc := hl c (by simp)
    simp only [List.cons_append, List.dropWhile_cons, hc]
    exact ih (fun d hd => hl d (by simp [hd]))

lemma span_append_eq {P : Char → Bool} (l r : List Char)
    (hl : ∀ c ∈ l, P c = true) (hr : ∀ c, r.head? = some c → P c = false) :
    (l ++ r).span P = (l, r) := by
  rw [List.span_eq_take_drop, takeWhile_append_eq l r hl hr, dropWhile_append_eq l r hl hr]

/-- The header `type[(scope)][!]: description` as a character list, used
to state parsing lemmas about assembled messages. -/
def headerChars (t : List Char) (sc : Option (List Char)) (brk : Bool)
    (d : List Char) : List Char :=
  t ++ (match sc with | some s => '(' :: (s ++ [')']) | none => [])
    ++ (if brk then ['!'] else []) ++ ':' :: ' ' :: d

/-- The conventional pattern recovers the components of a well-formed
assembled header followed by a tail that is empty or starts at a line
break. -/
lemma conventionalMatch_assembled (t : List Char) (sc : Option (List Char))
    (brk : Bool) (d tail : List Char) (bf : Option (List Char) × Option (List Char))
    (ht : t ≠ []) (hw : ∀ c ∈ t, isWordChar c = true)
    (hsc : ∀ s, sc = some s → (s ≠ [] ∧ ∀ c ∈ s, isScopeChar c = true))
    (hd : d ≠ []) (hdn : ∀ c ∈ d, c ≠ '\n')
    (htail : ∀ c, tail.head? = some c → c = '\n')
    (hrs : restSplit tail = some bf) :
    conventionalMatch (headerChars t sc brk d ++ tail) =
      some { type := t, scope := sc, breaking := brk, description := d,
             body := bf.1, footer := bf.2 } := by
  have hdtake : (d ++ tail).takeWhile isNotNewline = d := by
    apply takeWhile_append_eq
    · intro c hc; simp [isNotNewline, hdn c hc]
    · intro c hc; simp [isNotNewline, htail c hc]
  have hddrop : (d ++ tail).dropWhile isNotNewline = tail := by
    apply dropWhile_append_eq
    · intro c hc; simp [isNotNewline, hdn c hc]
    · intro c hc; simp [isNotNewline, htail c hc]
  cases sc with
  | some s =>
    obtain ⟨hs, hsw⟩ := hsc s rfl
    cases brk with
    | true =>
      have h1 : headerChars t (some s) true d ++ tail =
          t ++ ('(' :: (s ++ ')' :: '!' :: ':' :: ' ' :: (d ++ tail))) := by
        simp [headerChars, List.append_assoc]
      have hwtake : (t ++ ('(' :: (s ++ ')' :: '!' :: ':' :: ' ' :: (d ++ tail)))).takeWhile
          isWordChar = t :=
        takeWhile_append_eq _ _ hw (by intro c hc; simp at hc; subst hc; decide)
      have hwdrop : (t ++ ('(' :: (s ++ ')' :: '!' :: ':' :: ' ' :: (d ++ tail)))).dropWhile
          isWordChar = '(' :: (s ++ ')' :: '!' :: ':' :: ' ' :: (d ++ tail)) :=
        dropWhile_append_eq _ _ hw (by intro c hc; simp at hc; subst hc; decide)
      have hstake : (s ++ ')' :: '!' :: ':' :: ' ' :: (d ++ tail)).takeWhile isScopeChar = s :=
        takeWhile_append_eq _ _ hsw (by intro c hc; simp at hc; subst hc; decide)
      have hsdrop : (s ++ ')' :: '!' :: ':' :: ' ' :: (d ++ tail)).dropWhile isScopeChar
          = ')' :: '!' :: ':' :: ' ' :: (d ++ tail) :=
        dropWhile_append_eq _ _ hsw (by intro c hc; simp at hc; subst hc; decide)
      rw [h1, conventionalMatch]
      simp [hwtake, hwdrop, hstake, hsdrop, hdtake, hddrop, ht, hs, hd, hrs]
    | false =>
      have h1 : headerChars t (some s) false d ++ tail =
          t ++ ('(' :: (s ++ ')' :: ':' :: ' ' :: (d ++ tail))) := by
        simp [headerChars, List.append_assoc]
      have hwtake : (t ++ ('(' :: (s ++ ')' :: ':' :: ' ' :: (d ++ tail)))).takeWhile
          isWordChar = t :=
        takeWhile_append_eq _ _ hw (by intro c hc; simp at hc; subst hc; decide)
      have hwdrop : (t ++ ('(' :: (s ++ ')' :: ':' :: ' ' :: (d ++ tail)))).dropWhile
          isWordChar = '(' :: (s ++ ')' :: ':' :: ' ' :: (d ++ tail)) :=
        dropWhile_append_eq _ _ hw (by intro c hc; simp at hc; subst hc; decide)
      have hstake : (s ++ ')' :: ':' :: ' ' :: (d ++ tail)).takeWhile isScopeChar = s :=
        takeWhile_append_eq _ _ hsw (by intro c hc; simp at hc; subst hc; decide)
      have hsdrop : (s ++ ')' :: ':' :: ' ' :: (d ++ tail)).dropWhile isScopeChar
          = ')' :: ':' :: ' ' :: (d ++ tail) :=
        dropWhile_append_eq _ _ hsw (by intro c hc; simp at hc; subst hc; decide)
      rw [h1, conventionalMatch]
      simp [hwtake, hwdrop, hstake, hsdrop, hdtake, hddrop, ht, hs, hd, hrs]
  | none =>
    cases brk with
    | true =>
      have h1 : headerChars t none true d ++ tail =
          t ++ ('!' :: ':' :: ' ' :: (d ++ tail)) := by
        simp [headerChars, List.append_assoc]
      have hwtake : (t ++ ('!' :: ':' :: ' ' :: (d ++ tail))).takeWhile isWordChar = t :=
        takeWhile_append_eq _ _ hw (by intro c hc; simp at hc; subst hc; decide)
      have hwdrop : (t ++ ('!' :: ':' :: ' ' :: (d ++ tail))).dropWhile isWordChar
          = '!' :: ':' :: ' ' :: (d ++ tail) :=
        dropWhile_append_eq _ _ hw (by intro c hc; simp at hc; subst hc; decide)
      rw [h1, conventionalMatch]
      simp [hwtake, hwdrop, hdtake, hddrop, ht, hd, hrs]
    | false =>
      have h1 : headerChars t none false d ++ tail =
          t ++ (':' :: ' ' :: (d ++ tail)) := by
        simp [headerChars, List.append_assoc]
      have hwtake : (t ++ (':' :: ' ' :: (d ++ tail))).takeWhile isWordChar = t :=
        takeWhile_append_eq _ _ hw (by intro c hc; simp at hc; subst hc; decide)
      have hwdrop : (t ++ (':' :: ' ' :: (d ++ tail))).dropWhile isWordChar
          = ':' :: ' ' :: (d ++ tail) :=
        dropWhile_append_eq _ _ hw (by intro c hc; simp at hc; subst hc; decide)
      rw [h1, conventionalMatch]
      simp [hwtake, hwdrop, hdtake, hddrop, ht, hd, hrs]

lemma conventionalValidate_match_none (cfg : ConvConfig) (msg : String)
    (h : conventionalMatch msg.data = none) :
    conventionalValidate cfg msg = { valid := false, errors := [convGenericErr] } := by
  simp [conventionalValidate, h]

lemma conventionalValidate_match_some (cfg : ConvConfig) (msg : String) (p : ConvParts)
    (h : conventionalMatch msg.data = some p) :
    conventionalValidate cfg msg =
      { valid := (convErrors cfg p).isEmpty
        errors := convErrors cfg p
        type := some (String.mk p.type)
        scope := p.scope.map String.mk
        breaking := p.breaking
        description := some (String.mk p.description)
        body := p.body.map String.mk
        footer := p.footer.map String.mk } := by
  simp [conventionalValidate, h]

/-- C10: a conventional message of the form `<type>(): description`
(nonempty word-character type, empty parentheses) fails the structural
pattern for every configuration and every description, yielding exactly
the single generic error. -/
theorem conventional_empty_scope_generic_error (cfg : ConvConfig) (t d : String)
    (ht : t.data ≠ []) (hw : ∀ c ∈ t.data, isWordChar c = true) :
    conventionalValidate cfg (t ++ "(): " ++ d) =
      { valid := false, errors := [convGenericErr] } := by
  apply conventionalValidate_match_none
  have hdata : (t ++ "(): " ++ d).data
      = t.data ++ ('(' :: ')' :: ':' :: ' ' :: d.data) := by
    simp [String.data_append]
  have hwdrop : (t.data ++ ('(' :: ')' :: ':' :: ' ' :: d.data)).dropWhile isWordChar
      = '(' :: ')' :: ':' :: ' ' :: d.data :=
    dropWhile_append_eq _ _ hw (by intro c hc; simp at hc; subst hc; decide)
  have hwtake : (t.data ++ ('(' :: ')' :: ':' :: ' ' :: d.data)).takeWhile isWordChar
      = t.data :=
    takeWhile_append_eq _ _ hw (by intro c hc; simp at hc; subst hc; decide)
  rw [hdata, conventionalMatch]
  simp [hwtake, hwdrop, ht, List.takeWhile, isScopeChar, isWordChar]

/-- Witness for `conventional_empty_scope_generic_error` at
`"feat(): description"`. -/
theorem conventional_empty_scope_generic_error_witness :
    ("feat" : String).data ≠ [] ∧ (∀ c ∈ ("feat" : String).data, isWordChar c = true) ∧
    conventionalValidate {} ("feat" ++ "(): " ++ "description") =
      { valid := false, errors := [convGenericErr] } :=
  ⟨by decide, by decide,
    conventional_empty_scope_generic_error {} "feat" "description" (by decide) (by decide)⟩

/-- C6 counterexample: with `types = ["my type"]` (a configured type
containing a space) the message `"my type: hello"` is of the claimed
form `"<t>: description"` with `t` in the configured list, an
all-lowercase description with no trailing period, and total length
within `max_subject_length`, yet `validate` rejects it — the structural
pattern only matches word-character types, so the claim as stated fails
on this configuration. -/
theorem conventional_c6_counterexample :
    ("my type" : String) ∈ ({ types := ["my type"], max_subject_length := 100 : ConvConfig}).types
    ∧ ({ types := ["my type"], max_subject_length := 100 : ConvConfig}).types ≠ []
    ∧ ("my type: hello" : String) = "my type" ++ ": " ++ "hello"
    ∧ (∀ c ∈ ("hello" : String).data, c.isLower = true)
    ∧ ("hello" : String).data.getLast? ≠ some '.'
    ∧ ("my type: hello" : String).length ≤ 100
    ∧ (conventionalValidate { types := ["my type"], max_subject_length := 100 }
        "my type: hello").valid = false := by
  refine ⟨by decide, by decide, by decide, by decide, by decide, by decide, ?_⟩
  decide

/-- C6 (amended): for every configuration setting a non-empty types list
and a maximum subject length (other keys at defaults), and every message
`"<t>: d"` with `t` in the list, `t` a nonempty word-character string,
`d` a nonempty single-line description whose first character is a
lowercase letter, which does not end in a period after trimming
whitespace, and total length at most the maximum, `validate` returns
`valid = true`. -/
theorem conventional_simple_message_valid (types : List String) (maxLen : Nat)
    (t d : String)
    (htypes : t ∈ types)
    (ht : t.data ≠ []) (hw : ∀ c ∈ t.data, isWordChar c = true)
    (hd : d.data ≠ []) (hdn : ∀ c ∈ d.data, c ≠ '\n')
    (hlow : (d.data.headD ' ').isLower = true)
    (hper : (pyStrip d.data).getLast? ≠ some '.')
    (hlen : t.length + 2 + d.length ≤ maxLen) :
    (conventionalValidate { types := types, max_subject_length := maxLen }
      (t ++ ": " ++ d)).valid = true := by
  have hdata : (t ++ ": " ++ d).data = headerChars t.data none false d.data ++ [] := by
    simp [String.data_append, headerChars]
  have hmatch : conventionalMatch (t ++ ": " ++ d).data
      = some { type := t.data, scope := none, breaking := false,
               description := d.data, body := none, footer := none } := by
    rw [hdata]
    exact conventionalMatch_assembled t.data none false d.data [] (none, none)
      ht hw (by intro s h; cases h) hd hdn (by intro c h; cases h) rfl
  rw [conventionalValidate_match_some _ _ _ hmatch]
  simp only [List.isEmpty_iff]
  have hsubj : convSubjectLine
      { type := t.data, scope := none, breaking := false,
        description := d.data, body := none, footer := none } =
      t.data ++ ':' :: ' ' :: d.data := by
    simp [convSubjectLine]
  rw [convErrors]
  have hlow2 : (d.data.head?.getD ' ').isLower = true := by
    simpa [List.headD_eq_head?_getD] using hlow
  simp [hsubj, htypes, convCaseErrors, hper]
  refine ⟨by omega, ?_⟩
  simp [hlow2]
  intro h
  exact absurd h (by decide)

/-- Witness for `conventional_simple_message_valid` at the spec's
Scenario A configuration and message. -/
theorem conventional_simple_message_valid_witness :
    (conventionalValidate { types := ["feat", "fix"], max_subject_length := 100 }
      ("feat" ++ ": " ++ "add new capability")).valid = true :=
  conventional_simple_message_valid ["feat", "fix"] 100 "feat" "add new capability"
    (by decide) (by decide) (by decide) (by decide) (by decide)
    (by decide) (by decide) (by decide)

/-- C8: for every handler and every input, whenever `validate` returns a
result, its `errors` list is empty exactly when `valid` is true (each
constructor site sets `valid = len(errors) == 0` or pairs
`valid = False` with a singleton error list). -/
theorem valid_iff_errors_empty :
    (∀ (cfg : ConvConfig) (msg : String),
      (conventionalValidate cfg msg).valid = true
        ↔ (conventionalValidate cfg msg).errors = [])
    ∧ (∀ (cfg : JiraConfig) (msg : String),
      (jiraValidate cfg msg).valid = true ↔ (jiraValidate cfg msg).errors = [])
    ∧ (∀ (cfg : GitHubConfig) (msg : String) (r : GitHubResult),
      githubValidate cfg msg = .ok r → (r.valid = true ↔ r.errors = []))
    ∧ (∀ (matchFn : String → Option (List (String × Option String)))
        (msg : String) (r : CustomResult),
      customValidate matchFn msg = .ok r → (r.valid = true ↔ r.errors = [])) := by
  refine ⟨?_, ?_, ?_, ?_⟩
  · intro cfg msg
    cases h : conventionalMatch msg.data with
    | none => rw [conventionalValidate_match_none cfg msg h]; simp [convGenericErr]
    | some p => rw [conventionalValidate_match_some cfg msg p h]; simp [List.isEmpty_iff]
  · intro cfg msg
    cases hsp : splitOnBlank msg.data with
    | mk p0 pb =>
      unfold jiraValidate
      rw [hsp]
      cases hm : jiraIdMatch (pyStrip p0) <;>
        simp [List.isEmpty_iff] <;> split <;> simp [List.isEmpty_iff]
  · intro cfg msg r h
    unfold githubValidate at h
    repeat' split at h
    all_goals first
      | (injection h with h2; subst h2; simp [List.isEmpty_iff])
      | (injection h)
  · intro matchFn msg r h
    unfold customValidate at h
    repeat' split at h
    all_goals first
      | (injection h with h2; subst h2; simp [List.isEmpty_iff])
      | (injection h)

/-- Witness for `valid_iff_errors_empty`: instantiating all four parts at
concrete inputs (the GitHub and Custom parts at their actually returned
results). -/
theorem valid_iff_errors_empty_witness :
    ((conventionalValidate {} "feat: add parser").valid = true
      ↔ (conventionalValidate {} "feat: add parser").errors = [])
    ∧ ((jiraValidate {} "PROJ-12: fix boot").valid = true
      ↔ (jiraValidate {} "PROJ-12: fix boot").errors = [])
    ∧ (({ valid := true, errors := [], message := some "Add parser" : GitHubResult}.valid = true)
      ↔ ({ valid := true, errors := [], message := some "Add parser" : GitHubResult}.errors = []))
    ∧ (({ valid := false, errors := [customGenericErr], message := "q" : CustomResult}.valid = true)
      ↔ ({ valid := false, errors := [customGenericErr], message := "q" : CustomResult}.errors = [])) :=
  ⟨valid_iff_errors_empty.1 {} "feat: add parser",
   valid_iff_errors_empty.2.1 {} "PROJ-12: fix boot",
   valid_iff_errors_empty.2.2.1 {} "Add parser"
     { valid := true, errors := [], message := some "Add parser" } rfl,
   valid_iff_errors_empty.2.2.2 (fun _ => none) "q"
     { valid := false, errors := [customGenericErr], message := "q" } rfl⟩

/-! ## Distinctness of error strings

The boundary claim (`C7`) asserts the *absence* of a length error at the
boundary, so the length-error string must be told apart from every other
error a validator can emit.  Each comparison looks at a prefix on which
both strings are determined by their literal parts. -/

lemma str_ne_of_take_ne (n : Nat) {s t : String} (h : s.data.take n ≠ t.data.take n) :
    s ≠ t :=
  fun he => h (by rw [he])

lemma convTypeErr_ne_lengthErr (tp : String) (types : List String) (a b : Nat) :
    convTypeErr tp types ≠ convLengthErr a b := by
  apply str_ne_of_take_ne 14
  simp only [convTypeErr, convLengthErr, String.data_append, List.append_assoc]
  rw [List.take_append_of_le_length (by decide), List.take_append_of_le_length (by decide)]
  decide

lemma convScopeRequiredErr_ne_lengthErr (a b : Nat) :
    convScopeRequiredErr ≠ convLengthErr a b := by
  apply str_ne_of_take_ne 23
  simp only [convScopeRequiredErr, convLengthErr, String.data_append, List.append_assoc]
  rw [List.take_append_of_le_length (by decide)]
  decide

lemma convScopeErr_ne_lengthErr (sc : String) (scopes : List String) (a b : Nat) :
    convScopeErr sc scopes ≠ convLengthErr a b := by
  apply str_ne_of_take_ne 15
  simp only [convScopeErr, convLengthErr, String.data_append, List.append_assoc]
  rw [List.take_append_of_le_length (by decide), List.take_append_of_le_length (by decide)]
  decide

lemma convBreakingErr_ne_lengthErr (tp : String) (a b : Nat) :
    convBreakingErr tp ≠ convLengthErr a b := by
  apply str_ne_of_take_ne 23
  simp only [convBreakingErr, convLengthErr, String.data_append, List.append_assoc]
  rw [List.take_append_of_le_length (by decide), List.take_append_of_le_length (by decide)]
  decide

lemma convLowerErr_ne_lengthErr (a b : Nat) : convLowerErr ≠ convLengthErr a b := by
  apply str_ne_of_take_ne 23
  simp only [convLowerErr, convLengthErr, String.data_append, List.append_assoc]
  rw [List.take_append_of_le_length (by decide)]
  decide

lemma convUpperErr_ne_lengthErr (a b : Nat) : convUpperErr ≠ convLengthErr a b := by
  apply str_ne_of_take_ne 23
  simp only [convUpperErr, convLengthErr, String.data_append, List.append_assoc]
  rw [List.take_append_of_le_length (by decide)]
  decide

lemma convPeriodErr_ne_lengthErr (a b : Nat) : convPeriodErr ≠ convLengthErr a b := by
  apply str_ne_of_take_ne 23
  simp only [convPeriodErr, convLengthErr, String.data_append, List.append_assoc]
  rw [List.take_append_of_le_length (by decide)]
  decide

lemma convBodyRequiredErr_ne_lengthErr (a b : Nat) :
    convBodyRequiredErr ≠ convLengthErr a b := by
  apply str_ne_of_take_ne 23
  simp only [convBodyRequiredErr, convLengthErr, String.data_append, List.append_assoc]
  rw [List.take_append_of_le_length (by decide)]
  decide

lemma convFooterRequiredErr_ne_lengthErr (a b : Nat) :
    convFooterRequiredErr ≠ convLengthErr a b := by
  apply str_ne_of_take_ne 23
  simp only [convFooterRequiredErr, convLengthErr, String.data_append, List.append_assoc]
  rw [List.take_append_of_le_length (by decide)]
  decide

lemma githubImperativeErr_ne_lengthErr (a b : Nat) :
    githubImperativeErr ≠ githubLengthErr a b := by
  apply str_ne_of_take_ne 23
  simp only [githubImperativeErr, githubLengthErr, String.data_append, List.append_assoc]
  rw [List.take_append_of_le_length (by decide)]
  decide

lemma githubMissingRefErr_ne_lengthErr (first : String) (kws : List String) (a b : Nat) :
    githubMissingRefErr first kws ≠ githubLengthErr a b := by
  apply str_ne_of_take_ne 23
  simp only [githubMissingRefErr, githubLengthErr, String.data_append, List.append_assoc]
  rw [List.take_append_of_le_length (by decide), List.take_append_of_le_length (by decide)]
  decide

lemma mem_ite_singleton {x e : String} {c : Prop} [Decidable c]
    (h : x ∈ (if c then [e] else [])) : x = e := by
  by_cases hc : c
  · simpa [hc] using h
  · simp [hc] at h

/-- No length error is in the conventional rule-error list when the
reconstructed subject line fits. -/
lemma convLengthErr_not_mem (cfg : ConvConfig) (p : ConvParts)
    (h : ¬ (convSubjectLine p).length > cfg.max_subject_length) :
    ∀ a b, convLengthErr a b ∉ convErrors cfg p := by
  intro a b hmem
  rw [convErrors] at hmem
  simp only [List.mem_append] at hmem
  rcases hmem with ((((((((h1 | h2) | h3) | h4) | h5) | h6) | h7) | h8) | h9)
  · exact convTypeErr_ne_lengthErr _ _ a b (mem_ite_singleton h1).symm
  · exact convScopeRequiredErr_ne_lengthErr a b (mem_ite_singleton h2).symm
  · rcases hs : p.scope with _ | sc
    · rw [hs] at h3; simp at h3
    · rw [hs] at h3
      exact convScopeErr_ne_lengthErr _ _ a b (mem_ite_singleton h3).symm
  · exact convBreakingErr_ne_lengthErr _ a b (mem_ite_singleton h4).symm
  · rw [if_neg h] at h5; simp at h5
  · rw [convCaseErrors] at h6
    split at h6
    · simp only [List.mem_singleton] at h6
      exact convLowerErr_ne_lengthErr a b h6.symm
    · split at h6
      · simp only [List.mem_singleton] at h6
        exact convUpperErr_ne_lengthErr a b h6.symm
      · simp at h6
  · exact convPeriodErr_ne_lengthErr a b (mem_ite_singleton h7).symm
  · exact convBodyRequiredErr_ne_lengthErr a b (mem_ite_singleton h8).symm
  · exact convFooterRequiredErr_ne_lengthErr a b (mem_ite_singleton h9).symm

/-- The `.ok` result of the GitHub validator decomposes into the length
piece, the imperative piece, and a tail of missing-reference errors. -/
lemma githubValidate_ok_errors (cfg : GitHubConfig) (msg : String)
    (subject : List Char) (ob : Option (List Char)) (r : GitHubResult)
    (hsplit : githubSplit msg.data = some (subject, ob))
    (hok : githubValidate cfg msg = .ok r) :
    ∃ tailErrs,
      r.errors =
        (if subject.length > cfg.max_subject_length then
          [githubLengthErr subject.length cfg.max_subject_length] else [])
        ++ (if cfg.imperative_mood
              ∧ String.mk (pyLower (firstWord subject)) ∈ nonImperativeStarters then
            [githubImperativeErr] else [])
        ++ tailErrs
      ∧ ∀ m ∈ tailErrs, ∃ first, m = githubMissingRefErr first cfg.keywords := by
  cases hsi : searchIssue cfg.keywords msg.data with
  | some kn =>
    obtain ⟨kw, num⟩ := kn
    simp only [githubValidate, hsplit, hsi] at hok
    refine ⟨[], ?_, by simp⟩
    injection hok with h2
    subst h2
    simp
  | none =>
    simp only [githubValidate, hsplit] at hok
    rw [hsi] at hok
    by_cases hreq : cfg.issue_reference_required = true
    · cases hkw : cfg.keywords with
      | nil =>
        simp [hreq, hkw] at hok
      | cons first rest =>
        simp only [hreq, hkw, if_pos] at hok
        refine ⟨[githubMissingRefErr first (first :: rest)], ?_, ?_⟩
        · injection hok with h2
          subst h2
          simp [hkw]
        · intro m hm
          simp only [List.mem_singleton] at hm
          exact ⟨first, by simp only [hm, hkw]⟩
    · simp only [hreq] at hok
      refine ⟨[], ?_, by simp⟩
      injection hok with h2
      subst h2
      simp

/-- C7: boundary behaviour of the subject-length rule for the
Conventional and GitHub handlers: a subject line exactly at
`max_subject_length` yields no length error, one character over yields
the error carrying the actual and maximum lengths. -/
theorem subject_length_boundary :
    (∀ (cfg : ConvConfig) (msg : String) (p : ConvParts),
      conventionalMatch msg.data = some p →
      ((convSubjectLine p).length = cfg.max_subject_length →
        ∀ a b, convLengthErr a b ∉ (conventionalValidate cfg msg).errors)
      ∧ ((convSubjectLine p).length = cfg.max_subject_length + 1 →
        convLengthErr (convSubjectLine p).length cfg.max_subject_length
          ∈ (conventionalValidate cfg msg).errors))
    ∧ (∀ (cfg : GitHubConfig) (msg : String) (subject : List Char)
        (ob : Option (List Char)) (r : GitHubResult),
      githubSplit msg.data = some (subject, ob) → githubValidate cfg msg = .ok r →
      (subject.length = cfg.max_subject_length →
        ∀ a b, githubLengthErr a b ∉ r.errors)
      ∧ (subject.length = cfg.max_subject_length + 1 →
        githubLengthErr subject.length cfg.max_subject_length ∈ r.errors)) := by
  constructor
  · intro cfg msg p hm
    rw [conventionalValidate_match_some cfg msg p hm]
    constructor
    · intro heq
      exact convLengthErr_not_mem cfg p (by omega)
    · intro heq
      have hgt : (convSubjectLine p).length > cfg.max_subject_length := by omega
      rw [convErrors]
      simp [hgt]
  · intro cfg msg subject ob r hsplit hok
    obtain ⟨tailErrs, herr, htail⟩ := githubValidate_ok_errors cfg msg subject ob r hsplit hok
    rw [herr]
    constructor
    · intro heq a b hmem
      simp only [List.mem_append] at hmem
      rcases hmem with (h1 | h2) | h3
      · rw [if_neg (by omega)] at h1; simp at h1
      · exact githubImperativeErr_ne_lengthErr a b (mem_ite_singleton h2).symm
      · obtain ⟨first, hf⟩ := htail _ h3
        exact githubMissingRefErr_ne_lengthErr first cfg.keywords a b (hf ▸ rfl)
    · intro heq
      have hgt : subject.length > cfg.max_subject_length := by omega
      simp [hgt]

/-- Witness for `subject_length_boundary`: the Conventional part at a
10-character limit with subjects of length 10 and 11, the GitHub part
likewise. -/
theorem subject_length_boundary_witness :
    ((convSubjectLine { type := "feat".data, scope := none, breaking := false,
                        description := "abcd".data, body := none, footer := none }).length = 10
      ∧ (∀ a b, convLengthErr a b ∉
          (conventionalValidate { max_subject_length := 10 } "feat: abcd").errors))
    ∧ (convLengthErr 11 10 ∈
        (conventionalValidate { max_subject_length := 10 } "feat: abcde").errors)
    ∧ (∀ a b, githubLengthErr a b ∉
        (({ valid := true, errors := [], message := some "Add parser" } : GitHubResult)).errors)
    ∧ (githubLengthErr 11 10 ∈
        (({ valid := false, errors := [githubLengthErr 11 10],
            message := some "Add parsers" } : GitHubResult)).errors) := by
  refine ⟨⟨by decide, ?_⟩, ?_, ?_, ?_⟩
  · exact (subject_length_boundary.1 { max_subject_length := 10 } "feat: abcd"
      { type := "feat".data, scope := none, breaking := false,
        description := "abcd".data, body := none, footer := none } (by decide)).1 (by decide)
  · exact (subject_length_boundary.1 { max_subject_length := 10 } "feat: abcde"
      { type := "feat".data, scope := none, breaking := false,
        description := "abcde".data, body := none, footer := none } (by decide)).2 (by decide)
  · exact (subject_length_boundary.2 { max_subject_length := 10 } "Add parser"
      "Add parser".data none { valid := true, errors := [], message := some "Add parser" }
      (by decide) rfl).1 (by decide)
  · exact (subject_length_boundary.2 { max_subject_length := 10 } "Add parsers"
      "Add parsers".data none
      { valid := false, errors := [githubLengthErr 11 10], message := some "Add parsers" }
      (by decide) rfl).2 (by decide)

/-- C3 counterexample: with the default configuration
(`require_issue_id = true`, `max_message_length = 72`) an 80-character
message with no issue id yields *two* errors — the generic missing-id
error and a length error computed over the whole message — not exactly
one, because `message_text` keeps its initial value (the entire commit
message) in the required-and-missing branch and the length check still
runs on it. -/
theorem jira_c3_counterexample :
    jiraIdMatch (pyStrip (splitOnBlank (String.mk (List.replicate 80 'a')).data).1) = none
    ∧ ({} : JiraConfig).require_issue_id = true
    ∧ (jiraValidate {} (String.mk (List.replicate 80 'a'))).errors
        = [jiraGenericErr, jiraLengthErr 80 72]
    ∧ (jiraValidate {} (String.mk (List.replicate 80 'a'))).errors ≠ [jiraGenericErr] := by
  refine ⟨by decide, by decide, by decide, by decide⟩

/-- C3 (amended): when the first line does not match the Jira id pattern
and `require_issue_id` holds, `validate` returns `valid = false` with the
generic missing-id error first, followed by a length error over the whole
message exactly when the whole message exceeds `max_message_length` — the
length check is not skipped. -/
theorem jira_missing_id_error_and_length (cfg : JiraConfig) (msg : String)
    (hreq : cfg.require_issue_id = true)
    (hnm : jiraIdMatch (pyStrip (splitOnBlank msg.data).1) = none) :
    (jiraValidate cfg msg).valid = false ∧
    (jiraValidate cfg msg).errors =
      jiraGenericErr :: (if msg.length > cfg.max_message_length then
        [jiraLengthErr msg.length cfg.max_message_length] else []) := by
  cases hsp : splitOnBlank msg.data with
  | mk p0 pb =>
    rw [hsp] at hnm
    simp only at hnm
    unfold jiraValidate
    simp only [hsp, hnm, hreq]
    have hlen : msg.data.length = msg.length := rfl
    simp [hlen]

/-- Witness for `jira_missing_id_error_and_length` at a short message. -/
theorem jira_missing_id_error_and_length_witness :
    (jiraValidate {} "no colon here").valid = false ∧
    (jiraValidate {} "no colon here").errors = [jiraGenericErr] :=
  ⟨(jira_missing_id_error_and_length {} "no colon here" rfl (by decide)).1,
   ((jira_missing_id_error_and_length {} "no colon here" rfl (by decide)).2).trans (by decide)⟩

/-- C4 counterexample: with `jira_project_keys = ["PROJ"]` and
`require_issue_id = true`, the message `"INVALID-1: x"` *is* matched by
the fixed `JIRA_ID_PATTERN` (any uppercase key), so the failure is
reported through the project-membership error — a different string from
the generic "must start with a Jira issue ID (e.g., …)" error the claim
names. -/
theorem jira_c4_counterexample :
    (jiraValidate { jira_project_keys := ["PROJ"], require_issue_id := true }
      "INVALID-1: x").errors = [jiraProjectErr ["PROJ"]]
    ∧ jiraProjectErr ["PROJ"] ≠ jiraGenericErr := by
  refine ⟨by decide, by decide⟩

/-- C4 (amended): on `"INVALID-1: x"` with allowed project `PROJ`,
`validate` returns `valid = false` with exactly the project-membership
("allowed projects") error, id `INVALID-1` and message `x` extracted —
the generic structural path is not taken, because `validate` matches the
fixed module-level pattern, not the compiled project-key pattern. -/
theorem jira_c4_project_membership_error :
    jiraValidate { jira_project_keys := ["PROJ"], require_issue_id := true }
      "INVALID-1: x"
      = { valid := false, errors := [jiraProjectErr ["PROJ"]],
          issue_id := some "INVALID-1", message := some "x", body := none } := by
  decide

/-! ## C5: parenthesized issue references are not found -/

/-- If every suffix of `pre ++ l` at which the keyword-and-reference part
matches sits right after a `'('`, the whitespace-scanning part of the
search finds nothing in `l` (a position found by the scan sits right
after a whitespace character, which is not `'('`). -/
lemma searchIssueScan_none (kws : List String) :
    ∀ (l pre : List Char),
      (∀ pre' suf, pre ++ l = pre' ++ suf →
        matchRefHere kws suf ≠ none → pre'.getLast? = some '(') →
      searchIssueScan kws l = none := by
  intro l
  induction l with
  | nil => intro pre h; rfl
  | cons c rest ih =>
    intro pre h
    have hstep : ∀ pre' suf, (pre ++ [c]) ++ rest = pre' ++ suf →
        matchRefHere kws suf ≠ none → pre'.getLast? = some '(' := by
      intro pre' suf he hm
      exact h pre' suf (by rw [← he]; simp) hm
    unfold searchIssueScan
    by_cases hsp : isPySpace c = true
    · have hmr : matchRefHere kws rest = none := by
        by_contra hne
        have hc := hstep (pre ++ [c]) rest (by simp) hne
        rw [List.getLast?_concat] at hc
        have : c = '(' := by injection hc
        subst this
        simp [isPySpace] at hsp
      simp only [hsp, if_true, hmr]
      exact ih (pre ++ [c]) hstep
    · simp only [hsp, if_false]
      exact ih (pre ++ [c]) hstep

/-- C5 counterexample: the claim quantifies over *every* message whose
keyword references are all parenthesized, which vacuously includes the
empty message; there `commit_pattern` does not match at all, `validate`
returns early with the single generic error, and no missing-reference
error is appended even though `issue_reference_required` is set. -/
theorem github_c5_counterexample :
    (∀ pre suf, ("" : String).data = pre ++ suf →
        matchRefHere ["Fixes", "Closes", "Resolves"] suf ≠ none →
        pre.getLast? = some '(')
    ∧ githubValidate { issue_reference_required := true } ""
        = .ok { valid := false, errors := [githubInvalidErr] }
    ∧ githubMissingRefErr "Fixes" ["Fixes", "Closes", "Resolves"] ∉ [githubInvalidErr] := by
  refine ⟨?_, rfl, by decide⟩
  intro pre suf he hm
  have hpre : pre = [] ∧ suf = [] := by
    have : pre ++ suf = [] := he.symm
    exact List.append_eq_nil.mp this
  rw [hpre.2] at hm
  exact absurd rfl hm

/-- In the search-failed, reference-required branch with a nonempty
keyword list, `validate` returns the record built from the length piece,
the imperative piece and the missing-reference error. -/
lemma githubValidate_none_required (cfg : GitHubConfig) (msg : String)
    (subject : List Char) (ob : Option (List Char)) (first : String) (rest : List String)
    (hsplit : githubSplit msg.data = some (subject, ob))
    (hse : searchIssue cfg.keywords msg.data = none)
    (hkw : cfg.keywords = first :: rest)
    (hreq : cfg.issue_reference_required = true) :
    githubValidate cfg msg = .ok
      { valid := ((if subject.length > cfg.max_subject_length then
            [githubLengthErr subject.length cfg.max_subject_length] else [])
          ++ (if cfg.imperative_mood = true
                ∧ String.mk (pyLower (firstWord subject)) ∈ nonImperativeStarters then
              [githubImperativeErr] else [])
          ++ [githubMissingRefErr first (first :: rest)]).isEmpty
        errors := (if subject.length > cfg.max_subject_length then
            [githubLengthErr subject.length cfg.max_subject_length] else [])
          ++ (if cfg.imperative_mood = true
                ∧ String.mk (pyLower (firstWord subject)) ∈ nonImperativeStarters then
              [githubImperativeErr] else [])
          ++ [githubMissingRefErr first (first :: rest)]
        message := some (String.mk subject) } := by
  unfold githubValidate
  simp only [hsplit]
  rw [hse]
  simp only [hreq, hkw, if_pos]

/-- In the search-failed, reference-not-required branch, `validate`
returns the record built from the length and imperative pieces alone. -/
lemma githubValidate_none_optional (cfg : GitHubConfig) (msg : String)
    (subject : List Char) (ob : Option (List Char))
    (hsplit : githubSplit msg.data = some (subject, ob))
    (hse : searchIssue cfg.keywords msg.data = none)
    (hreq : cfg.issue_reference_required ≠ true) :
    githubValidate cfg msg = .ok
      { valid := ((if subject.length > cfg.max_subject_length then
            [githubLengthErr subject.length cfg.max_subject_length] else [])
          ++ (if cfg.imperative_mood = true
                ∧ String.mk (pyLower (firstWord subject)) ∈ nonImperativeStarters then
              [githubImperativeErr] else [])).isEmpty
        errors := (if subject.length > cfg.max_subject_length then
            [githubLengthErr subject.length cfg.max_subject_length] else [])
          ++ (if cfg.imperative_mood = true
                ∧ String.mk (pyLower (firstWord subject)) ∈ nonImperativeStarters then
              [githubImperativeErr] else [])
        message := some (String.mk subject) } := by
  unfold githubValidate
  simp only [hsplit]
  rw [hse]
  simp [hreq]

/-- C5 (amended): for every *nonempty* message in which every occurrence
of a configured keyword followed by an issue number is immediately
preceded by an opening parenthesis, and a nonempty (letter-only) keyword
list, `validate` returns a result with no issue reference or keyword
recorded, and appends the missing-reference error naming the first
configured keyword when `issue_reference_required` is set. -/
theorem github_paren_refs_not_matched (cfg : GitHubConfig) (msg : String)
    (hne : msg.data ≠ []) (hkw : cfg.keywords ≠ [])
    (hletters : ∀ kw ∈ cfg.keywords, ∀ c ∈ kw.data, c.isAlpha = true)
    (hpre : ∀ pre suf, msg.data = pre ++ suf →
        matchRefHere cfg.keywords suf ≠ none → pre.getLast? = some '(') :
    ∃ r, githubValidate cfg msg = .ok r
      ∧ r.issue_reference = none ∧ r.issue_keyword = none
      ∧ (∀ first rest, cfg.keywords = first :: rest →
          cfg.issue_reference_required = true →
          githubMissingRefErr first cfg.keywords ∈ r.errors) := by
  have hmr0 : matchRefHere cfg.keywords msg.data = none := by
    by_contra hne2
    have := hpre [] msg.data rfl hne2
    simp at this
  have hse : searchIssue cfg.keywords msg.data = none := by
    unfold searchIssue
    rw [hmr0]
    exact searchIssueScan_none cfg.keywords msg.data [] (by simpa using hpre)
  cases hd : msg.data with
  | nil => exact absurd hd hne
  | cons c rest =>
    have hsplit : githubSplit msg.data = some (c :: (bodySplit rest).1, (bodySplit rest).2) := by
      rw [hd]
      simp [githubSplit]
    by_cases hreq : cfg.issue_reference_required = true
    · cases hkw2 : cfg.keywords with
      | nil => exact absurd hkw2 hkw
      | cons first rest2 =>
        refine ⟨_, githubValidate_none_required cfg msg _ _ first rest2 hsplit hse hkw2 hreq,
          rfl, rfl, ?_⟩
        intro first' rest' hkeq hreq2
        first
          | (injection hkeq with h1 h2; subst h1; simp)
          | (rw [hkw2] at hkeq; injection hkeq with h1 h2; subst h1; simp)
    · refine ⟨_, githubValidate_none_optional cfg msg _ _ hsplit hse hreq,
        rfl, rfl, ?_⟩
      intro first' rest' hkeq hreq2
      exact absurd hreq2 hreq

/-- Witness for `github_paren_refs_not_matched` at the repository test's
message `"Add support (Fixes #123)"` with a required reference. -/
theorem github_paren_refs_not_matched_witness :
    ∃ r, githubValidate { issue_reference_required := true } "Add support (Fixes #123)"
      = .ok r
      ∧ r.issue_reference = none ∧ r.issue_keyword = none
      ∧ (∀ first rest,
          ({ issue_reference_required := true } : GitHubConfig).keywords = first :: rest →
          ({ issue_reference_required := true } : GitHubConfig).issue_reference_required = true →
          githubMissingRefErr first
            ({ issue_reference_required := true } : GitHubConfig).keywords ∈ r.errors) := by
  apply github_paren_refs_not_matched { issue_reference_required := true }
    "Add support (Fixes #123)" (by decide) (by decide) (by decide)
  intro pre suf he hm
  have h1 : pre = ("Add support (Fixes #123)" : String).data.take pre.length := by
    rw [he, List.take_left]
  have h2 : suf = ("Add support (Fixes #123)" : String).data.drop pre.length := by
    rw [he, List.drop_left]
  have hl : pre.length ≤ ("Add support (Fixes #123)" : String).data.length := by
    rw [he]
    simp
  have key : ∀ i : Fin (("Add support (Fixes #123)" : String).data.length + 1),
      (matchRefHere ({ issue_reference_required := true } : GitHubConfig).keywords
        (("Add support (Fixes #123)" : String).data.drop i.1) ≠ none) →
      (("Add support (Fixes #123)" : String).data.take i.1).getLast? = some '(' := by
    decide
  have hk := key ⟨pre.length, by omega⟩ (by rw [← h2]; exact hm)
  rw [← h1] at hk
  exact hk

/-! ## C9: registry dispatch, and C1: the Custom handler's raise -/

/-- C9 counterexample: for the configuration
`{format_type: "custom"}` (no `custom_pattern`), `get_commit_format`
resolves the name but the Custom constructor raises
`InvalidPatternError`, so no handler is returned even though the name is
one of the four valid ones. -/
theorem registry_c9_counterexample :
    getCommitFormat (fun _ => true) { format_type := some "custom" }
      = .error customMissingPatternErr
    ∧ ∀ f : FormatName,
        getCommitFormat (fun _ => true) { format_type := some "custom" } ≠ .ok f := by
  refine ⟨rfl, ?_⟩
  intro f h
  rw [show getCommitFormat (fun _ => true) { format_type := some "custom" }
      = .error customMissingPatternErr from rfl] at h
  exact Except.noConfusion h

/-- C9 (amended): `get_commit_format` reads `format_type` (default
`"conventional"` when absent) and dispatches on exactly the four
registered names, failing with the unknown-format error listing the
valid names, without constructing anything, for every other name.  Only
`"conventional"` returns a handler unconditionally (its constructor
compiles a fixed pattern); `"github"` and `"jira"` return a handler
exactly when the pattern their constructors assemble from the unescaped
configured keywords / project keys compiles, and otherwise propagate the
compilation error; `"custom"` invokes the Custom constructor, which
fails with `InvalidPatternError` when `custom_pattern` is missing or
does not compile. -/
theorem registry_dispatch (compileOk : String → Bool) (cfg : RegistryConfig) :
    (cfg.format_type.getD "conventional" = "conventional" →
      getCommitFormat compileOk cfg = .ok .conventional)
    ∧ (cfg.format_type = some "github" →
      getCommitFormat compileOk cfg =
        (if compileOk (githubIssuePatternStr cfg.keywords) then .ok .github
         else .error reCompileErr))
    ∧ (cfg.format_type = some "jira" →
      getCommitFormat compileOk cfg =
        (if compileOk (jiraCommitPatternStr cfg.jira_project_keys) then .ok .jira
         else .error reCompileErr))
    ∧ (cfg.format_type = some "custom" →
      getCommitFormat compileOk cfg =
        (if cfg.custom_pattern.getD "" = "" then .error customMissingPatternErr
         else if ¬ compileOk (cfg.custom_pattern.getD "") then .error customInvalidPatternErr
         else .ok .custom))
    ∧ (∀ ft, cfg.format_type = some ft → ft ∉ formatRegistry.map (·.1) →
      getCommitFormat compileOk cfg = .error (unknownFormatErr ft)
      ∧ ∀ f, getCommitFormat compileOk cfg ≠ .ok f) := by
  refine ⟨?_, ?_, ?_, ?_, ?_⟩
  · intro h
    simp [getCommitFormat, h, formatRegistry, List.lookup, constructHandler]
  · intro h
    simp [getCommitFormat, h, formatRegistry, List.lookup, constructHandler]
  · intro h
    simp [getCommitFormat, h, formatRegistry, List.lookup, constructHandler]
  · intro h
    simp only [getCommitFormat, h, Option.getD_some]
    rw [show formatRegistry.lookup "custom" = some .custom by rfl]
    simp [constructHandler]
  · intro ft hft hmem
    have hlk : formatRegistry.lookup ft = none := by
      simp [formatRegistry] at hmem
      obtain ⟨h1, h2, h3, h4⟩ := hmem
      simp only [formatRegistry, List.lookup]
      rw [show (ft == "conventional") = false by simp [h1]]
      rw [show (ft == "github") = false by simp [h2]]
      rw [show (ft == "jira") = false by simp [h3]]
      rw [show (ft == "custom") = false by simp [h4]]
    constructor
    · simp [getCommitFormat, hft, hlk]
    · intro f h
      rw [show getCommitFormat compileOk cfg = .error (unknownFormatErr ft) by
        simp [getCommitFormat, hft, hlk]] at h
      exact Except.noConfusion h

/-- Witness for `registry_dispatch`: absent `format_type` yields the
Conventional handler; `"github"` yields the GitHub handler when the
assembled keyword pattern compiles, and `"jira"` propagates the
compilation error when its assembled pattern does not; the name
`"weird"` is rejected with the unknown-format error. -/
theorem registry_dispatch_witness :
    getCommitFormat (fun _ => true) {} = .ok .conventional
    ∧ getCommitFormat (fun _ => true) { format_type := some "github" } = .ok .github
    ∧ getCommitFormat (fun _ => false) { format_type := some "jira" }
        = .error reCompileErr
    ∧ getCommitFormat (fun _ => true) { format_type := some "weird" }
        = .error (unknownFormatErr "weird") :=
  ⟨(registry_dispatch (fun _ => true) {}).1 rfl,
   ((registry_dispatch (fun _ => true) { format_type := some "github" }).2.1 rfl).trans rfl,
   ((registry_dispatch (fun _ => false) { format_type := some "jira" }).2.2.1 rfl).trans rfl,
   ((registry_dispatch (fun _ => true) { format_type := some "weird" }).2.2.2.2
      "weird" rfl (by decide)).1⟩

/-- C1: the Custom handler's `validate` raises on its own claimed case.
With the configured pattern `^(?P<a>x)(?P<b>y)?$` the message `"x"`
matches with the optional group `b` not participating; `groupdict()`
then maps `b` to `None`, and constructing
`CustomCommitResult(matches=...)` — whose `matches` field is typed
`Dict[str, str]` — raises `pydantic.ValidationError` instead of
returning a result. -/
theorem custom_optional_group_raises :
    xyMatch "x" = some [("a", some "x"), ("b", none)]
    ∧ customValidate xyMatch "x" = .error customPydanticErr
    ∧ ∀ r, customValidate xyMatch "x" ≠ .ok r := by
  refine ⟨rfl, rfl, ?_⟩
  intro r h
  rw [show customValidate xyMatch "x" = .error customPydanticErr from rfl] at h
  exact Except.noConfusion h

/-! ## C2: round-trip of the interactive builders -/

lemma isJiraIdChar_of_upper {c : Char} (h : isUpperAZ c = true) :
    isJiraIdChar c = true := by
  simp [isUpperAZ] at h
  simp [isJiraIdChar, h]

lemma head?_mem {α : Type} {l : List α} {c : α} (h : l.head? = some c) : c ∈ l := by
  cases l with
  | nil => cases h
  | cons a as =>
    simp at h
    subst h
    simp

end CommitLint
